import Mathlib

/-!
Verification development for `flopy/modpath/mp6sim.py`: the MODPATH 6
simulation-file writer (`Modpath6Sim`) and the particle starting-locations
writer (`StartingLocationsFile`).

The Python module is shallowly embedded:
  * text output is modelled as the list of strings passed to `f.write(...)`
    (one list element per `write` call, newlines included exactly where the
    source puts them); the on-disk file text is the concatenation;
  * Python ints are `Int`, Python/numpy floats are `ℚ` together with an
    explicit formatting function standing for the `"{:f}"` / `"{:.8f}"` /
    `"%.8f"` fixed-point renderings (both writers of a comparison always
    receive the same formatter, mirroring "the same float format");
  * numpy fixed-width byte strings (`|S40`, `|S16`) are `String`s compared
    bytewise through their code points (`strLt`), which coincides with the
    numpy byte order on ASCII data;
  * a raised Python exception is an explicit error value; output produced
    before the raise is kept, as the source writes incrementally.
-/

/-- Code-point comparison of characters, the order numpy uses on the bytes of
`|S` fields (identical to byte order for ASCII data). -/
def chLt (a b : Char) : Bool := decide (a.toNat < b.toNat)

/-- Lexicographic order on character lists, modelling numpy's byte-string
comparison used by `np.unique` on the `groupname` column. -/
def strLtB : List Char → List Char → Bool
  | [], [] => false
  | [], _ :: _ => true
  | _ :: _, [] => false
  | a :: as, b :: bs =>
    if chLt a b then true else if chLt b a then false else strLtB as bs

/-- Byte-string order on `String`, via the underlying character list. -/
def strLt (a b : String) : Bool := strLtB a.data b.data

/-- Insert an element into a sorted duplicate-free list, keeping it sorted and
duplicate-free with respect to the strict order `lt`. -/
def insertUnique {α : Type} [DecidableEq α] (lt : α → α → Bool) (x : α) :
    List α → List α
  | [] => [x]
  | y :: ys =>
    if lt x y then x :: y :: ys
    else if x = y then y :: ys
    else y :: insertUnique lt x ys

/-- Sorted deduplication: the model of `np.unique` (and of the sorted group
keys produced by a pandas `groupby`). -/
def sortedUnique {α : Type} [DecidableEq α] (lt : α → α → Bool)
    (l : List α) : List α :=
  l.foldr (insertUnique lt) []

/-- Pad a digit string on the left with zeros to width `n`. -/
def padZeros (n : Nat) (s : String) : String :=
  if s.length < n then String.mk (List.replicate (n - s.length) '0') ++ s else s

/-- Fixed-point rendering of the nonnegative rational `num / den` with `prec`
digits after the point, rounding half away from zero. -/
def fmtNN (prec : Nat) (num den : Int) : String :=
  let scaled : Int := (2 * num * (10 : Int) ^ prec + den) / (2 * den)
  toString (scaled / (10 : Int) ^ prec) ++ "." ++
    padZeros prec (toString (scaled % (10 : Int) ^ prec))

/-- Fixed-point rendering of a rational with `prec` digits after the point:
the model of Python's `"{:.Nf}"` / `"%.Nf"` formatting of the (here
rational-valued) float fields. -/
def fmtFixed (prec : Nat) (q : ℚ) : String :=
  if q.num < 0 then "-" ++ fmtNN prec (-q.num) q.den else fmtNN prec q.num q.den

/-- Python-style `"{:4d}"`: decimal rendering right-aligned in a field of
width 4, space-padded. -/
def padInt4 (n : Int) : String :=
  let s := toString n
  if s.length < 4 then String.mk (List.replicate (4 - s.length) ' ') ++ s else s

/-- Model of a Python exception escaping one of the embedded methods. -/
inductive PyErr where
  | attributeError
  | notImplementedError
  deriving DecidableEq

/-- One particle row of the starting-locations record array, with the fixed
12-field schema of `StartingLocationsFile.get_dtypes`. -/
structure Record where
  particleid : Int
  particlegroup : Int
  initialgrid : Int
  k0 : Int
  i0 : Int
  j0 : Int
  xloc0 : ℚ
  yloc0 : ℚ
  zloc0 : ℚ
  initialtime : ℚ
  label : String
  groupname : String
  deriving DecidableEq

/-- The in-place `data["k0"] += 1; data["i0"] += 1; data["j0"] += 1` of
`StartingLocationsFile.write_file`, applied (there) to a copy of the data. -/
def bumpRecord (r : Record) : Record :=
  { r with k0 := r.k0 + 1, i0 := r.i0 + 1, j0 := r.j0 + 1 }

/-- One particle line as both writers emit it: the six integer fields, the
four float fields through the float format, then the decoded label; single
spaces between fields, newline at the end.  In `_write_wo_pandas` this is
`"{:d} {:d} {:d} {:d} {:d} {:d}"` followed by `" {f} {f} {f} {f} "` and the
label; the pandas `to_csv` with `sep=" "` renders the same columns (minus the
dropped `groupname`) identically. -/
def rowLine (ff : ℚ → String) (p : Record) : String :=
  toString p.particleid ++ " " ++ toString p.particlegroup ++ " " ++
    toString p.initialgrid ++ " " ++ toString p.k0 ++ " " ++ toString p.i0 ++
    " " ++ toString p.j0 ++ " " ++ ff p.xloc0 ++ " " ++ ff p.yloc0 ++ " " ++
    ff p.zloc0 ++ " " ++ ff p.initialtime ++ " " ++ p.label ++ "\n"

/-- The group keys of the row-oriented writer: `np.unique(data.groupname)`,
i.e. the distinct group names in sorted byte order. -/
def woGroupNames (data : List Record) : List String :=
  sortedUnique strLt (data.map (fun r => r.groupname))

/-- Chunks written by `StartingLocationsFile._write_wo_pandas`: heading,
input style, group count, one chunk per group (name line then member-count
line), then the accumulated particle text written in one final call. -/
def writeWoPandasChunks (heading : String) (input_style : Int)
    (ff : ℚ → String) (data : List Record) : List String :=
  let groups := woGroupNames data
  [heading ++ "\n", toString input_style ++ "\n",
   toString groups.length ++ "\n"]
  ++ groups.map (fun g =>
       g ++ "\n" ++
         toString (data.filter (fun r => r.groupname == g)).length ++ "\n")
  ++ [String.join (data.map (rowLine ff))]

/-- File text produced by the row-oriented writer. -/
def writeWoPandasText (heading : String) (input_style : Int)
    (ff : ℚ → String) (data : List Record) : String :=
  String.join (writeWoPandasChunks heading input_style ff data)

/-- The group keys of the bulk writer: `groupby("particlegroup")` sorts the
distinct `particlegroup` integers ascending. -/
def pandasGroupKeys (data : List Record) : List Int :=
  sortedUnique (fun a b : Int => decide (a < b))
    (data.map (fun r => r.particlegroup))

/-- The name the bulk writer attaches to a `particlegroup` key: the
`group_dict` built from `itertuples` maps each key to the `groupname` of the
last row carrying it (later rows overwrite earlier ones). -/
def lastGroupName (data : List Record) (pg : Int) : String :=
  ((data.filter (fun r => r.particlegroup == pg)).map
    (fun r => r.groupname)).getLastD ""

/-- Chunks written by `StartingLocationsFile._write_particle_data_with_pandas`:
heading, input style, group count, then one appended `to_csv` block with the
(name, count) values one per line, then one appended `to_csv` block with the
particle rows (the `groupname` column dropped). -/
def writeWithPandasChunks (heading : String) (input_style : Int)
    (ff : ℚ → String) (data : List Record) : List String :=
  let keys := pandasGroupKeys data
  [heading ++ "\n", toString input_style ++ "\n",
   toString keys.length ++ "\n",
   String.join (keys.map (fun pg =>
     lastGroupName data pg ++ "\n" ++
       toString (data.filter (fun r => r.particlegroup == pg)).length ++
       "\n")),
   String.join (data.map (rowLine ff))]

/-- File text produced by the bulk-tabular writer. -/
def writeWithPandasText (heading : String) (input_style : Int)
    (ff : ℚ → String) (data : List Record) : String :=
  String.join (writeWithPandasChunks heading input_style ff data)

/-- State of a `StartingLocationsFile` instance: the fields the writer
reads. -/
structure SLFState where
  heading : String
  input_style : Int
  use_pandas : Bool
  data : List Record
  deriving DecidableEq

/-- Outcome of `StartingLocationsFile.write_file`: either no file was opened
or created (the empty-data early return), or a file with the given text was
written. -/
inductive WriteResult where
  | noWrite
  | wrote (text : String)
  deriving DecidableEq

/-- Model of `StartingLocationsFile.write_file(data, float_format)`:
`dataArg = none` stands for the `data=None` default (use `self.data`);
`pandasAvail` stands for `pd is not None`.  The index bump is applied to
`data.copy()`, never to the stored records, and the instance state is
returned unchanged. -/
def slfWriteFile (st : SLFState) (dataArg : Option (List Record))
    (ff : ℚ → String) (pandasAvail : Bool) : WriteResult × SLFState :=
  let data := dataArg.getD st.data
  if data.length = 0 then (WriteResult.noWrite, st)
  else
    let data2 := data.map bumpRecord
    if pandasAvail && st.use_pandas && decide (0 < data2.length) then
      (WriteResult.wrote (writeWithPandasText st.heading st.input_style ff data2), st)
    else
      (WriteResult.wrote (writeWoPandasText st.heading st.input_style ff data2), st)

/-- Heading string set by `StartingLocationsFile.__init__`. -/
def slfHeading : String :=
  "# Starting locations file for Modpath, generated by Flopy."

/-- Model of `StartingLocationsFile.__init__(model, inputstyle, ...)`: any
input style other than 1 raises `NotImplementedError` during construction;
otherwise the instance starts with the empty record array produced by
`get_empty_starting_locations_data(0)`. -/
def startingLocationsInit (inputstyle : Int) (use_pandas : Bool) :
    Except PyErr SLFState :=
  if inputstyle ≠ 1 then Except.error PyErr.notImplementedError
  else Except.ok
    { heading := slfHeading, input_style := inputstyle,
      use_pandas := use_pandas, data := [] }

/-- The 12-element `option_flags` vector of `Modpath6Sim`, with the names the
constructor zips onto the positions to build `options_dict`. -/
structure OptionFlags where
  SimulationType : Int
  TrackingDirection : Int
  WeakSinkOption : Int
  WeakSourceOption : Int
  ReferenceTimeOption : Int
  StopOption : Int
  ParticleGenerationOption : Int
  TimePointOption : Int
  BudgetOutputOption : Int
  ZoneArrayOption : Int
  RetardationOption : Int
  AdvectiveObservationsOption : Int
  deriving DecidableEq

/-- The positional `option_flags` list, in the order item 3 writes it. -/
def OptionFlags.toList (f : OptionFlags) : List Int :=
  [f.SimulationType, f.TrackingDirection, f.WeakSinkOption, f.WeakSourceOption,
   f.ReferenceTimeOption, f.StopOption, f.ParticleGenerationOption,
   f.TimePointOption, f.BudgetOutputOption, f.ZoneArrayOption,
   f.RetardationOption, f.AdvectiveObservationsOption]

/-- Per-group data of `Modpath6Sim`: the entries of `group_name[i]`,
`group_placement[i]`, `release_times[i]`, `group_region[i]`, `mask_nlay[i]`,
`mask_layer[i]`, `mask_1lay[i]`, `face_ct[i]`, `ifaces[i]`,
`particle_cell_cnt[i]`, bundled per index.  The `get_file_entry()` results of
the mask arrays are carried as opaque strings, as the array serializer is an
external collaborator. -/
structure GroupSpec where
  name : String
  Grid : Int
  GridCellRegionOption : Int
  PlacementOption : Int
  ReleaseStartTime : ℚ
  ReleaseOption : Int
  CHeadOption : Int
  ReleasePeriodLength : ℚ
  ReleaseEventCount : Int
  MinLayer : Int
  MinRow : Int
  MinColumn : Int
  MaxLayer : Int
  MaxRow : Int
  MaxColumn : Int
  mask_nlay_entry : String
  mask_layer : Int
  mask_1lay_entry : String
  face_ct : Nat
  ifaces : Nat → Int × Int × Int
  particle_cell_cnt : Int × Int × Int

/-- Configuration state of a `Modpath6Sim` instance, holding the fields
`write_file` and `check` read.  Per-index list fields of the source are
carried as total functions together with the count that drives the loop
(`group_ct = len(group_name)`, `cell_bd_ct`), matching the spec invariant
that conditional fields are populated consistently; `zone`, `retard_fac` and
`retard_fcCB` appear through their `get_file_entry()` text. -/
structure SimConfig where
  heading1 : String
  heading2 : String
  mp_name_file : String
  mp_list_file : String
  flags : OptionFlags
  endpoint_file : String
  pathline_file : String
  time_ser_file : String
  advobs_file : String
  ref_time : ℚ
  ref_time_per_stp : Int × Int × ℚ
  stop_time : ℚ
  group_ct : Nat
  groups : Nat → GroupSpec
  strt_file : String
  time_ct : Nat
  release_time_incr : ℚ
  time_pts : List ℚ
  cell_bd_ct : Nat
  bud_loc : Nat → Int × Int × Int × Int
  trace_file : String
  trace_id : Int
  stop_zone : Int
  zone_entry : String
  retard_fac_entry : String
  retard_fcCB_entry : String

/-- Chunks written for one particle group (items 12 through 21 of
`Modpath6Sim.write_file`). -/
def groupChunks (ffmt : ℚ → String) (g : GroupSpec) : List String :=
  [g.name ++ "\n",
   toString g.Grid ++ " " ++ toString g.GridCellRegionOption ++ " " ++
     toString g.PlacementOption ++ " " ++ ffmt g.ReleaseStartTime ++ " " ++
     toString g.ReleaseOption ++ " " ++ toString g.CHeadOption ++ "\n"]
  ++ (if g.ReleaseOption = 2 then
        [ffmt g.ReleasePeriodLength ++ " " ++ toString g.ReleaseEventCount ++ "\n"]
      else [])
  ++ (if g.GridCellRegionOption = 1 then
        [toString (g.MinLayer + 1) ++ " " ++ toString (g.MinRow + 1) ++ " " ++
         toString (g.MinColumn + 1) ++ " " ++ toString (g.MaxLayer + 1) ++ " " ++
         toString (g.MaxRow + 1) ++ " " ++ toString (g.MaxColumn + 1) ++ "\n"]
      else [])
  ++ (if g.GridCellRegionOption = 2 then [g.mask_nlay_entry] else [])
  ++ (if g.GridCellRegionOption = 3 then
        [toString g.mask_layer ++ "\n", g.mask_1lay_entry]
      else [])
  ++ (if g.PlacementOption = 1 then
        (toString g.face_ct ++ "\n") ::
          (List.range g.face_ct).map (fun j =>
            toString (g.ifaces j).1 ++ " " ++ toString (g.ifaces j).2.1 ++ " " ++
              toString (g.ifaces j).2.2 ++ "\n")
      else if g.PlacementOption = 2 then
        [toString g.particle_cell_cnt.1 ++ " " ++
           toString g.particle_cell_cnt.2.1 ++ " " ++
           toString g.particle_cell_cnt.2.2 ++ " \n"]
      else [])

/-- The budget-block guard exactly as the source writes it:
`BudgetOutputOption != 1 or BudgetOutputOption != 2`. -/
def budgetGuard (b : Int) : Bool := (b != 1) || (b != 2)

/-- Chunks of items 8 through 33 of `Modpath6Sim.write_file`, emitted after
the advective-observations check has been passed. -/
def postAdvobsChunks (ffmt : ℚ → String) (cfg : SimConfig) : List String :=
  (if cfg.flags.ReferenceTimeOption = 1 then [ffmt cfg.ref_time ++ "\n"] else [])
  ++ (if cfg.flags.ReferenceTimeOption = 2 then
        [toString (cfg.ref_time_per_stp.1 + 1) ++ " " ++
           toString (cfg.ref_time_per_stp.2.1 + 1) ++ " " ++
           ffmt cfg.ref_time_per_stp.2.2 ++ "\n"]
      else [])
  ++ (if cfg.flags.StopOption = 3 then [ffmt cfg.stop_time ++ "\n"] else [])
  ++ (if cfg.flags.ParticleGenerationOption = 1 then
        (toString cfg.group_ct ++ "\n") ::
          ((List.range cfg.group_ct).map
            (fun i => groupChunks ffmt (cfg.groups i))).flatten
      else [])
  ++ (if cfg.flags.ParticleGenerationOption = 2 then [cfg.strt_file ++ "\n"] else [])
  ++ (if cfg.flags.TimePointOption ≠ 1 then
        (if cfg.flags.TimePointOption = 2 ∨ cfg.flags.TimePointOption = 3 then
           [toString cfg.time_ct ++ "\n"]
         else [])
        ++ (if cfg.flags.TimePointOption = 2 then
              [ffmt cfg.release_time_incr ++ "\n"]
            else [])
        ++ (if cfg.flags.TimePointOption = 3 then
              (List.range cfg.time_ct).map
                (fun r => ffmt (cfg.time_pts.getD r 0) ++ "\n")
            else [])
      else [])
  ++ (if budgetGuard cfg.flags.BudgetOutputOption then
        (if cfg.flags.BudgetOutputOption = 3 then
           (toString cfg.cell_bd_ct ++ "\n") ::
             (List.range cfg.cell_bd_ct).map (fun k =>
               toString (cfg.bud_loc k).1 ++ " " ++
                 toString ((cfg.bud_loc k).2.1 + 1) ++ " " ++
                 toString ((cfg.bud_loc k).2.2.1 + 1) ++ " " ++
                 toString ((cfg.bud_loc k).2.2.2 + 1) ++ " \n")
         else [])
        ++ (if cfg.flags.BudgetOutputOption = 4 then
              [cfg.trace_file ++ "\n", toString cfg.trace_id ++ "\n"]
            else [])
      else [])
  ++ (if cfg.flags.ZoneArrayOption ≠ 1 then
        [toString cfg.stop_zone ++ "\n", cfg.zone_entry]
      else [])
  ++ (if cfg.flags.RetardationOption ≠ 1 then
        [cfg.retard_fac_entry, cfg.retard_fcCB_entry]
      else [])

/-- Model of `Modpath6Sim.write_file`: the chunk sequence written to the file
and the exception, if any, that aborts the method.  Item 7 compares
`options_dict["AdvectiveObservationsOption"] == 2` and then reads
`self.option_dict` — an attribute that is never assigned (the constructor
sets `options_dict`) — so whenever the first conjunct holds, the conjunction
raises `AttributeError` and the file is left truncated after item 6. -/
def writeSimChunks (ffmt : ℚ → String) (cfg : SimConfig) :
    List String × Option PyErr :=
  let ls :=
    ["#" ++ cfg.heading1 ++ "\n#" ++ cfg.heading2 ++ "\n",
     cfg.mp_name_file ++ "\n",
     cfg.mp_list_file ++ "\n"]
    ++ cfg.flags.toList.map padInt4 ++ ["\n"]
    ++ [cfg.endpoint_file ++ "\n"]
    ++ (if cfg.flags.SimulationType = 2 then [cfg.pathline_file ++ "\n"] else [])
    ++ (if cfg.flags.SimulationType = 3 then [cfg.time_ser_file ++ "\n"] else [])
  if cfg.flags.AdvectiveObservationsOption = 2 then
    (ls, some PyErr.attributeError)
  else
    (ls ++ postAdvobsChunks ffmt cfg, none)

/-- Items 0 through 6 of `write_file` (everything before the
advective-observations conditional), for stating decompositions. -/
def simPreChunks (cfg : SimConfig) : List String :=
  ["#" ++ cfg.heading1 ++ "\n#" ++ cfg.heading2 ++ "\n",
   cfg.mp_name_file ++ "\n",
   cfg.mp_list_file ++ "\n"]
  ++ cfg.flags.toList.map padInt4 ++ ["\n"]
  ++ [cfg.endpoint_file ++ "\n"]
  ++ (if cfg.flags.SimulationType = 2 then [cfg.pathline_file ++ "\n"] else [])
  ++ (if cfg.flags.SimulationType = 3 then [cfg.time_ser_file ++ "\n"] else [])

/-- Items 8 through 25 (reference time through time points), for stating the
budget-block decomposition. -/
def simMidChunks (ffmt : ℚ → String) (cfg : SimConfig) : List String :=
  (if cfg.flags.ReferenceTimeOption = 1 then [ffmt cfg.ref_time ++ "\n"] else [])
  ++ (if cfg.flags.ReferenceTimeOption = 2 then
        [toString (cfg.ref_time_per_stp.1 + 1) ++ " " ++
           toString (cfg.ref_time_per_stp.2.1 + 1) ++ " " ++
           ffmt cfg.ref_time_per_stp.2.2 ++ "\n"]
      else [])
  ++ (if cfg.flags.StopOption = 3 then [ffmt cfg.stop_time ++ "\n"] else [])
  ++ (if cfg.flags.ParticleGenerationOption = 1 then
        (toString cfg.group_ct ++ "\n") ::
          ((List.range cfg.group_ct).map
            (fun i => groupChunks ffmt (cfg.groups i))).flatten
      else [])
  ++ (if cfg.flags.ParticleGenerationOption = 2 then [cfg.strt_file ++ "\n"] else [])
  ++ (if cfg.flags.TimePointOption ≠ 1 then
        (if cfg.flags.TimePointOption = 2 ∨ cfg.flags.TimePointOption = 3 then
           [toString cfg.time_ct ++ "\n"]
         else [])
        ++ (if cfg.flags.TimePointOption = 2 then
              [ffmt cfg.release_time_incr ++ "\n"]
            else [])
        ++ (if cfg.flags.TimePointOption = 3 then
              (List.range cfg.time_ct).map
                (fun r => ffmt (cfg.time_pts.getD r 0) ++ "\n")
            else [])
      else [])

/-- The cell-budget records of item 26/27 (count, then one line per cell with
layer, row and column shifted to 1-based on disk). -/
def budget3Chunks (cfg : SimConfig) : List String :=
  (toString cfg.cell_bd_ct ++ "\n") ::
    (List.range cfg.cell_bd_ct).map (fun k =>
      toString (cfg.bud_loc k).1 ++ " " ++
        toString ((cfg.bud_loc k).2.1 + 1) ++ " " ++
        toString ((cfg.bud_loc k).2.2.1 + 1) ++ " " ++
        toString ((cfg.bud_loc k).2.2.2 + 1) ++ " \n")

/-- The trace records of item 28/29 (trace file path, then trace id). -/
def budget4Chunks (cfg : SimConfig) : List String :=
  [cfg.trace_file ++ "\n", toString cfg.trace_id ++ "\n"]

/-- Items 30 through 33 (stop zone, zone array, retardation arrays). -/
def simTailChunks (cfg : SimConfig) : List String :=
  (if cfg.flags.ZoneArrayOption ≠ 1 then
     [toString cfg.stop_zone ++ "\n", cfg.zone_entry]
   else [])
  ++ (if cfg.flags.RetardationOption ≠ 1 then
        [cfg.retard_fac_entry, cfg.retard_fcCB_entry]
      else [])

/-- One entry of the check summary accumulated by `Modpath6Sim.check`. -/
inductive CheckEntry where
  | errorEntry (value : ℚ) (desc : String)
  | passedEntry (desc : String)
  deriving DecidableEq

/-- Model of `Modpath6Sim.check`: the summary entries added.  The single rule
fires only when `StopOption == 3` and `TimePointOption == 3`; it compares the
last explicit time point (`self.time_pts[-1]`) with the stop time. -/
def checkSim (cfg : SimConfig) : List CheckEntry :=
  if cfg.flags.StopOption = 3 ∧ cfg.flags.TimePointOption = 3 then
    if cfg.time_pts.getLastD 0 < cfg.stop_time then
      [CheckEntry.errorEntry cfg.stop_time "Stop time greater than last TimePoint"]
    else
      [CheckEntry.passedEntry "Valid stop time"]
  else []

/-- A group specification with the constructor's default per-group values. -/
def defaultGroupSpec : GroupSpec :=
  { name := "group_1", Grid := 1, GridCellRegionOption := 1,
    PlacementOption := 1, ReleaseStartTime := 0, ReleaseOption := 1,
    CHeadOption := 1, ReleasePeriodLength := 1, ReleaseEventCount := 1,
    MinLayer := 1, MinRow := 1, MinColumn := 1, MaxLayer := 1, MaxRow := 1,
    MaxColumn := 1, mask_nlay_entry := "1\n", mask_layer := 1,
    mask_1lay_entry := "1\n", face_ct := 1, ifaces := fun _ => (6, 1, 1),
    particle_cell_cnt := (2, 2, 2) }

/-- A simulation configuration with the constructor's default arguments for a
model named `mp` (flags `[1,2,1,1,1,2,2,1,2,1,1,1]`). -/
def defaultSimConfig : SimConfig :=
  { heading1 := "# MPSIM for Modpath, generated by Flopy.", heading2 := "#",
    mp_name_file := "mp.mpnam", mp_list_file := "mp.mplst",
    flags := ⟨1, 2, 1, 1, 1, 2, 2, 1, 2, 1, 1, 1⟩,
    endpoint_file := "mp.mpend", pathline_file := "mp.mppth",
    time_ser_file := "mp.mp.tim_ser", advobs_file := "mp.mp.advobs",
    ref_time := 0, ref_time_per_stp := (0, 0, 1), stop_time := 1,
    group_ct := 1, groups := fun _ => defaultGroupSpec, strt_file := "mp.loc",
    time_ct := 1, release_time_incr := 1, time_pts := [1], cell_bd_ct := 1,
    bud_loc := fun _ => (1, 1, 1, 1), trace_file := "mp.trace_file.txt",
    trace_id := 1, stop_zone := 1, zone_entry := "1\n",
    retard_fac_entry := "1.0\n", retard_fcCB_entry := "1.0\n" }

/-- Concrete configuration for exercising the budget-block decomposition. -/
def cfg4 : SimConfig := defaultSimConfig

/-- Concrete configuration for the stop-time check: `StopOption = 3`,
`TimePointOption = 3`, time points ending at 1, stop time 2. -/
def cfg5 : SimConfig :=
  { defaultSimConfig with
      flags := ⟨1, 2, 1, 1, 1, 3, 2, 3, 2, 1, 1, 1⟩,
      time_pts := [1], stop_time := 2 }

/-- Concrete configuration outside the check's guard
(`StopOption = 2`) whose stop time exceeds every time point. -/
def cfg10 : SimConfig :=
  { defaultSimConfig with
      flags := ⟨1, 2, 1, 1, 1, 2, 2, 3, 2, 1, 1, 1⟩,
      time_pts := [1], stop_time := 5 }

/-- Concrete configuration with `ReferenceTimeOption = 2` and a stored
0-based `(period, step) = (0, 0)`. -/
def cfg6 : SimConfig :=
  { defaultSimConfig with
      flags := ⟨1, 2, 1, 1, 2, 2, 2, 1, 2, 1, 1, 1⟩,
      ref_time_per_stp := (0, 0, mkRat 1 2) }

/-- A starting-locations record with zero-based cell indices `(0, 0, 0)`. -/
def rec6 : Record :=
  { particleid := 1, particlegroup := 1, initialgrid := 1, k0 := 0, i0 := 0,
    j0 := 0, xloc0 := mkRat 1 2, yloc0 := mkRat 1 2, zloc0 := 0,
    initialtime := 0, label := "p1", groupname := "group1" }

/-- Starting-locations state holding exactly `rec6`, with the pandas path
disabled. -/
def st6 : SLFState :=
  { heading := slfHeading, input_style := 1, use_pandas := false,
    data := [rec6] }

/-- First record of the writer-divergence input: `particlegroup = 1`,
`groupname = "B"`. -/
def recB : Record :=
  { particleid := 1, particlegroup := 1, initialgrid := 1, k0 := 1, i0 := 1,
    j0 := 1, xloc0 := mkRat 1 2, yloc0 := mkRat 1 2, zloc0 := 0,
    initialtime := 0, label := "p1", groupname := "B" }

/-- Second record of the writer-divergence input: same `particlegroup = 1`
but `groupname = "A"`. -/
def recA : Record :=
  { particleid := 2, particlegroup := 1, initialgrid := 1, k0 := 1, i0 := 1,
    j0 := 1, xloc0 := mkRat 1 2, yloc0 := mkRat 1 2, zloc0 := 0,
    initialtime := 0, label := "p2", groupname := "A" }

/-- Record set on which the two writers disagree: one `particlegroup` value
but two distinct `groupname` values. -/
def c1data : List Record := [recB, recA]

/-- Record set whose `groupname` column is the sequence `[B, A, B]`. -/
def c3data : List Record :=
  [recB, recA, { recB with particleid := 3, label := "p3" }]

/-- Single-group record set for the reconciled writer-equivalence statement. -/
def c1wdata : List Record :=
  [{ recB with groupname := "G" }, { recA with groupname := "G" }]

/-- Starting-locations state with an empty record array. -/
def st8 : SLFState :=
  { heading := slfHeading, input_style := 1, use_pandas := true, data := [] }

/-- Record set whose three rows carry group names `"B"`, `"A"`, `"B"`, for
instantiating the sorted-group-order statement. -/
def recB3 : Record := { recB with particleid := 3, label := "p3" }

theorem chLt_asymm {a b : Char} (h : chLt a b = true) : chLt b a = false := by
  simp [chLt] at h ⊢
  omega

theorem strLtB_irrefl : ∀ l : List Char, strLtB l l = false := by
  intro l
  induction l with
  | nil => rfl
  | cons a as ih => simp [strLtB, chLt, ih]

theorem strLt_ne {a b : String} (h : strLt a b = true) : a ≠ b := by
  intro he
  subst he
  rw [strLt, strLtB_irrefl] at h
  exact Bool.false_ne_true h

theorem strLtB_asymm : ∀ x y : List Char,
    strLtB x y = true → strLtB y x = false := by
  intro x
  induction x with
  | nil =>
    intro y h
    cases y with
    | nil => simp [strLtB] at h
    | cons b bs => rfl
  | cons a as ih =>
    intro y h
    cases y with
    | nil => exact absurd h (by simp [strLtB])
    | cons b bs =>
      by_cases hab : chLt a b = true
      · have hba := chLt_asymm hab
        simp [strLtB, hba, hab]
      · have hab' : chLt a b = false := by simpa using hab
        by_cases hba : chLt b a = true
        · rw [strLtB, hab', hba] at h
          simp at h
        · have hba' : chLt b a = false := by simpa using hba
          rw [strLtB, hab', hba'] at h
          simp at h
          simp [strLtB, hab', hba', ih bs h]

theorem strLt_asymm {a b : String} (h : strLt a b = true) :
    strLt b a = false :=
  strLtB_asymm a.data b.data h

theorem strLt_irrefl (a : String) : strLt a a = false :=
  strLtB_irrefl a.data

theorem sortedUnique_const {α : Type} [DecidableEq α] (lt : α → α → Bool)
    (g : α) (hgg : lt g g = false) :
    ∀ l : List α, l ≠ [] → (∀ x ∈ l, x = g) → sortedUnique lt l = [g] := by
  intro l
  induction l with
  | nil => intro h _; exact absurd rfl h
  | cons x xs ih =>
    intro _ hall
    have hx : x = g := hall x (List.mem_cons_self x xs)
    cases xs with
    | nil => simp [sortedUnique, insertUnique, hx]
    | cons y ys =>
      have hxs : sortedUnique lt (y :: ys) = [g] :=
        ih (by simp) (fun z hz => hall z (List.mem_cons_of_mem x hz))
      have hstep : sortedUnique lt (x :: y :: ys) =
          insertUnique lt x (sortedUnique lt (y :: ys)) := rfl
      rw [hstep, hxs, hx]
      simp [insertUnique, hgg]

theorem getLastD_const {α : Type} (g : α) :
    ∀ l : List α, l ≠ [] → (∀ x ∈ l, x = g) → ∀ d, l.getLastD d = g := by
  intro l
  induction l with
  | nil => intro h _ _; exact absurd rfl h
  | cons x xs ih =>
    intro _ hall d
    cases xs with
    | nil => simpa using hall x (by simp)
    | cons y ys =>
      have := ih (by simp) (fun z hz => hall z (List.mem_cons_of_mem x hz)) x
      simpa [List.getLastD_cons] using this

theorem budgetGuard_true (b : Int) : budgetGuard b = true := by
  by_cases h : b = 1
  · subst h; rfl
  · simp [budgetGuard, bne_iff_ne, h]

theorem writeSimChunks_ok (ffmt : ℚ → String) (cfg : SimConfig)
    (h : cfg.flags.AdvectiveObservationsOption ≠ 2) :
    writeSimChunks ffmt cfg =
      (simPreChunks cfg ++ postAdvobsChunks ffmt cfg, none) := by
  simp [writeSimChunks, simPreChunks, h]

theorem postAdvobsChunks_decomp (ffmt : ℚ → String) (cfg : SimConfig) :
    postAdvobsChunks ffmt cfg =
      simMidChunks ffmt cfg
      ++ ((if cfg.flags.BudgetOutputOption = 3 then budget3Chunks cfg else [])
          ++ (if cfg.flags.BudgetOutputOption = 4 then budget4Chunks cfg else []))
      ++ simTailChunks cfg := by
  have hg := budgetGuard_true cfg.flags.BudgetOutputOption
  simp [postAdvobsChunks, simMidChunks, budget3Chunks, budget4Chunks,
    simTailChunks, hg, List.append_assoc]

set_option maxRecDepth 4000

theorem toString_one_int : toString (1 : Int) = "1" := rfl

theorem toString_one_nat : toString (1 : Nat) = "1" := rfl

theorem slfWriteFile_single (st : SLFState) (r : Record) (ff : ℚ → String)
    (hdata : st.data = [r]) :
    slfWriteFile st none ff false =
      (WriteResult.wrote
        (writeWoPandasText st.heading st.input_style ff [bumpRecord r]), st) := by
  simp [slfWriteFile, hdata]

theorem writeWoPandasText_single (hd : String) (istyle : Int)
    (ff : ℚ → String) (p : Record) :
    writeWoPandasText hd istyle ff [p] =
      hd ++ "\n" ++ toString istyle ++ "\n1\n" ++ p.groupname ++ "\n1\n" ++
        rowLine ff p := by
  simp [writeWoPandasText, writeWoPandasChunks, woGroupNames, sortedUnique,
    insertUnique, String.join, toString_one_nat, String.append_assoc,
    String.empty_append]

/-- C1 (amended): the row-oriented and bulk-tabular writers, given the same
records and the same float format, produce identical output text whenever all
records carry one common `particlegroup` value and one common `groupname`
value.  (In general they differ — see the counterexample — because the
row-oriented writer groups by `groupname` in sorted byte order while the bulk
writer groups by the `particlegroup` integer.) -/
theorem c1_row_and_bulk_writers_agree_on_single_group
    (heading : String) (istyle : Int) (ff : ℚ → String) (pg : Int)
    (g : String) (data : List Record) (hne : data ≠ [])
    (hall : ∀ r ∈ data, r.particlegroup = pg ∧ r.groupname = g) :
    writeWoPandasText heading istyle ff data =
      writeWithPandasText heading istyle ff data := by
  have hmapne : data.map (fun r => r.groupname) ≠ [] := by simpa using hne
  have hmapne2 : data.map (fun r => r.particlegroup) ≠ [] := by simpa using hne
  have hnames : sortedUnique strLt (data.map (fun r => r.groupname)) = [g] := by
    refine sortedUnique_const strLt g (strLt_irrefl g) _ hmapne ?_
    intro x hx
    obtain ⟨r, hr, rfl⟩ := List.mem_map.1 hx
    exact (hall r hr).2
  have hkeys : sortedUnique (fun a b : Int => decide (a < b))
      (data.map (fun r => r.particlegroup)) = [pg] := by
    refine sortedUnique_const _ pg (by simp) _ hmapne2 ?_
    intro x hx
    obtain ⟨r, hr, rfl⟩ := List.mem_map.1 hx
    exact (hall r hr).1
  have hfg : data.filter (fun r => r.groupname == g) = data := by
    refine List.filter_eq_self.mpr ?_
    intro r hr
    simp [(hall r hr).2]
  have hfpg : data.filter (fun r => r.particlegroup == pg) = data := by
    refine List.filter_eq_self.mpr ?_
    intro r hr
    simp [(hall r hr).1]
  have hlast : lastGroupName data pg = g := by
    rw [lastGroupName, hfpg]
    refine getLastD_const g _ hmapne ?_ ""
    intro x hx
    obtain ⟨r, hr, rfl⟩ := List.mem_map.1 hx
    exact (hall r hr).2
  simp only [writeWoPandasText, writeWithPandasText, writeWoPandasChunks,
    writeWithPandasChunks, woGroupNames, pandasGroupKeys]
  rw [hnames, hkeys]
  simp [hfg, hfpg, hlast, String.join, String.empty_append]

/-- Witness for C1: the single-group hypotheses hold of `c1wdata` and the two
writers produce the same text on it. -/
theorem c1_row_and_bulk_writers_agree_on_single_group_witness :
  c1wdata ≠ [] ∧
    writeWoPandasText slfHeading 1 (fmtFixed 8) c1wdata =
      writeWithPandasText slfHeading 1 (fmtFixed 8) c1wdata :=
  ⟨by decide,
   c1_row_and_bulk_writers_agree_on_single_group slfHeading 1 (fmtFixed 8) 1
     "G" c1wdata (by decide) (by decide)⟩

/-- Counterexample for C1 as stated: on `c1data` — two records sharing
`particlegroup = 1` but with group names `"B"` and `"A"` — the two writers,
given the same records and the same float format, produce different output
text (the row-oriented writer reports two groups, the bulk writer one). -/
theorem c1_row_and_bulk_writers_differ :
  writeWoPandasText slfHeading 1 (fmtFixed 8) c1data ≠
    writeWithPandasText slfHeading 1 (fmtFixed 8) c1data := by
  decide

/-- C2: `write_file` never reaches the advective-observations record; instead
the item-7 conditional raises `AttributeError` exactly when
`AdvectiveObservationsOption == 2`, because the second conjunct reads the
never-assigned attribute `self.option_dict` (the constructor assigns
`self.options_dict`). -/
theorem c2_advobs_lookup_raises_attribute_error :
  ∀ (ffmt : ℚ → String) (cfg : SimConfig),
    (writeSimChunks ffmt cfg).2 = some PyErr.attributeError ↔
      cfg.flags.AdvectiveObservationsOption = 2 := by
  intro ffmt cfg
  by_cases h : cfg.flags.AdvectiveObservationsOption = 2 <;>
    simp [writeSimChunks, h]

/-- C3 (amended): for a record set whose `groupname` column is the sequence
`[B, A, B]` with `A` preceding `B` in byte order, the row-oriented writer
emits group-count 2 and the per-group (name, count) chunks in sorted order
`[A, B]` — `np.unique` sorts, it does not keep first-appearance order. -/
theorem c3_row_writer_groups_in_sorted_order (ff : ℚ → String) (hd : String)
    (istyle : Int) (a b : String) (r1 r2 r3 : Record)
    (h1 : r1.groupname = b) (h2 : r2.groupname = a) (h3 : r3.groupname = b)
    (hab : strLt a b = true) :
    writeWoPandasChunks hd istyle ff [r1, r2, r3] =
      [hd ++ "\n", toString istyle ++ "\n", toString (2 : Nat) ++ "\n",
       a ++ "\n" ++ toString (1 : Nat) ++ "\n",
       b ++ "\n" ++ toString (2 : Nat) ++ "\n",
       String.join ([r1, r2, r3].map (rowLine ff))] := by
  have hba := strLt_asymm hab
  have hbb := strLt_irrefl b
  have hne : a ≠ b := strLt_ne hab
  have hgroups : woGroupNames [r1, r2, r3] = [a, b] := by
    simp [woGroupNames, sortedUnique, insertUnique, h1, h2, h3, hab, hba,
      hbb, Ne.symm hne]
  simp [writeWoPandasChunks, hgroups, h1, h2, h3, hne, Ne.symm hne]

/-- Witness for C3: instantiated at the records with group names
`"B", "A", "B"`. -/
theorem c3_row_writer_groups_in_sorted_order_witness :
  strLt "A" "B" = true ∧
    writeWoPandasChunks slfHeading 1 (fmtFixed 8) [recB, recA, recB3] =
      [slfHeading ++ "\n", toString (1 : Int) ++ "\n",
       toString (2 : Nat) ++ "\n",
       "A" ++ "\n" ++ toString (1 : Nat) ++ "\n",
       "B" ++ "\n" ++ toString (2 : Nat) ++ "\n",
       String.join ([recB, recA, recB3].map (rowLine (fmtFixed 8)))] :=
  ⟨by decide,
   c3_row_writer_groups_in_sorted_order (fmtFixed 8) slfHeading 1 "A" "B"
     recB recA recB3 rfl rfl rfl (by decide)⟩

/-- Counterexample for C3 as stated: on the record set `c3data` with group
names `"B", "A", "B"` the row-oriented writer does emit group-count 2, but
the per-group chunks come in sorted order `["A", "B"]`, not in
first-appearance order `["B", "A"]`. -/
theorem c3_group_lines_not_first_appearance :
  writeWoPandasChunks slfHeading 1 (fmtFixed 8) c3data =
    [slfHeading ++ "\n", "1\n", "2\n", "A\n1\n", "B\n2\n",
     String.join (c3data.map (rowLine (fmtFixed 8)))] ∧
  writeWoPandasChunks slfHeading 1 (fmtFixed 8) c3data ≠
    [slfHeading ++ "\n", "1\n", "2\n", "B\n2\n", "A\n1\n",
     String.join (c3data.map (rowLine (fmtFixed 8)))] := by
  constructor <;> decide

/-- C4: the budget guard `BudgetOutputOption != 1 or BudgetOutputOption != 2`
is true for every operand value, so the block is always entered; inside it
the cell-count and per-cell chunks (with 1-based layer/row/column) appear
exactly when `BudgetOutputOption == 3` and the trace-file and trace-id chunks
exactly when `BudgetOutputOption == 4`.  (The `AdvectiveObservationsOption ≠ 2`
hypothesis is only needed for execution to reach the block at all, per the
independent item-7 defect.) -/
theorem c4_budget_guard_always_true_and_block_contents :
  (∀ b : Int, budgetGuard b = true) ∧
    ∀ (ffmt : ℚ → String) (cfg : SimConfig),
      cfg.flags.AdvectiveObservationsOption ≠ 2 →
      (writeSimChunks ffmt cfg).1 =
        simPreChunks cfg ++ simMidChunks ffmt cfg
          ++ (if cfg.flags.BudgetOutputOption = 3 then budget3Chunks cfg else [])
          ++ (if cfg.flags.BudgetOutputOption = 4 then budget4Chunks cfg else [])
          ++ simTailChunks cfg := by
  refine ⟨budgetGuard_true, ?_⟩
  intro ffmt cfg h
  rw [writeSimChunks_ok ffmt cfg h]
  simp [postAdvobsChunks_decomp, List.append_assoc]

/-- Witness for C4: the default configuration (`BudgetOutputOption = 2`)
satisfies the hypothesis and the decomposition. -/
theorem c4_budget_guard_always_true_and_block_contents_witness :
  cfg4.flags.AdvectiveObservationsOption ≠ 2 ∧
    (writeSimChunks (fmtFixed 6) cfg4).1 =
      simPreChunks cfg4 ++ simMidChunks (fmtFixed 6) cfg4
        ++ (if cfg4.flags.BudgetOutputOption = 3 then budget3Chunks cfg4 else [])
        ++ (if cfg4.flags.BudgetOutputOption = 4 then budget4Chunks cfg4 else [])
        ++ simTailChunks cfg4 :=
  ⟨by decide,
   c4_budget_guard_always_true_and_block_contents.2 (fmtFixed 6) cfg4
     (by decide)⟩

/-- C5: with `StopOption == 3`, `TimePointOption == 3` and an explicit
time-point sequence ending at `T`, `check` adds exactly one error entry whose
value is the stop time when the stop time exceeds `T`, and exactly one passed
entry when the stop time is at most `T` (and, being a total function of the
configuration, raises no exception). -/
theorem c5_stop_time_check_single_entry :
  ∀ (cfg : SimConfig) (T : ℚ),
    cfg.flags.StopOption = 3 → cfg.flags.TimePointOption = 3 →
    cfg.time_pts.getLast? = some T →
    (T < cfg.stop_time →
      checkSim cfg =
        [CheckEntry.errorEntry cfg.stop_time
          "Stop time greater than last TimePoint"]) ∧
    (cfg.stop_time ≤ T →
      checkSim cfg = [CheckEntry.passedEntry "Valid stop time"]) := by
  intro cfg T h1 h2 hT
  constructor
  · intro hlt
    simp [checkSim, h1, h2, hT, hlt]
  · intro hle
    simp [checkSim, h1, h2, hT, not_lt.mpr hle]

/-- Witness for C5: `cfg5` has time points ending at 1 and stop time 2, and
gets exactly one error entry carrying the stop time. -/
theorem c5_stop_time_check_single_entry_witness :
  (cfg5.flags.StopOption = 3 ∧ cfg5.flags.TimePointOption = 3 ∧
    cfg5.time_pts.getLast? = some 1 ∧ (1 : ℚ) < cfg5.stop_time) ∧
  checkSim cfg5 =
    [CheckEntry.errorEntry cfg5.stop_time
      "Stop time greater than last TimePoint"] :=
  ⟨⟨by decide, by decide, by decide, by decide⟩,
   (c5_stop_time_check_single_entry cfg5 1 (by decide) (by decide)
     (by decide)).1 (by decide)⟩

/-- C6: the 0-based to 1-based conversions happen exactly at write time — a
record stored with `k0 = i0 = j0 = 0` is written with on-disk cell indices
`1 1 1`, and under `ReferenceTimeOption == 2` a stored `(period, step) =
(0, 0)` is written as the record `1 1 <fraction>`. -/
theorem c6_indices_converted_at_write_time :
  ∀ (ffmt ff : ℚ → String) (cfg : SimConfig) (st : SLFState) (r : Record),
    cfg.flags.ReferenceTimeOption = 2 →
    cfg.flags.AdvectiveObservationsOption ≠ 2 →
    cfg.ref_time_per_stp.1 = 0 → cfg.ref_time_per_stp.2.1 = 0 →
    st.data = [r] → r.k0 = 0 → r.i0 = 0 → r.j0 = 0 →
    (("1 1 " ++ ffmt cfg.ref_time_per_stp.2.2 ++ "\n") ∈
        (writeSimChunks ffmt cfg).1) ∧
    slfWriteFile st none ff false =
      (WriteResult.wrote
        (st.heading ++ "\n" ++ toString st.input_style ++ "\n1\n" ++
          r.groupname ++ "\n1\n" ++
          (toString r.particleid ++ " " ++ toString r.particlegroup ++ " " ++
            toString r.initialgrid ++ " 1 1 1 " ++ ff r.xloc0 ++ " " ++
            ff r.yloc0 ++ " " ++ ff r.zloc0 ++ " " ++ ff r.initialtime ++
            " " ++ r.label ++ "\n")), st) := by
  intro ffmt ff cfg st r hRTO hAOO hP hS hdata hk hi hj
  constructor
  · rw [writeSimChunks_ok ffmt cfg hAOO]
    refine List.mem_append.mpr (Or.inr ?_)
    simp [postAdvobsChunks, hRTO, hP, hS, toString_one_int, List.mem_append]
  · rw [slfWriteFile_single st r ff hdata, writeWoPandasText_single]
    simp [rowLine, bumpRecord, hk, hi, hj, toString_one_int,
      String.append_assoc]

/-- Witness for C6: instantiated at `cfg6` (reference time option 2, stored
period/step `(0, 0)`) and the state `st6` holding the single record `rec6`
with `k0 = i0 = j0 = 0`. -/
theorem c6_indices_converted_at_write_time_witness :
  (cfg6.flags.ReferenceTimeOption = 2 ∧
    cfg6.flags.AdvectiveObservationsOption ≠ 2 ∧
    cfg6.ref_time_per_stp.1 = 0 ∧ cfg6.ref_time_per_stp.2.1 = 0 ∧
    st6.data = [rec6] ∧ rec6.k0 = 0 ∧ rec6.i0 = 0 ∧ rec6.j0 = 0) ∧
  (("1 1 " ++ fmtFixed 6 cfg6.ref_time_per_stp.2.2 ++ "\n") ∈
      (writeSimChunks (fmtFixed 6) cfg6).1) ∧
  slfWriteFile st6 none (fmtFixed 8) false =
    (WriteResult.wrote
      (st6.heading ++ "\n" ++ toString st6.input_style ++ "\n1\n" ++
        rec6.groupname ++ "\n1\n" ++
        (toString rec6.particleid ++ " " ++ toString rec6.particlegroup ++
          " " ++ toString rec6.initialgrid ++ " 1 1 1 " ++
          fmtFixed 8 rec6.xloc0 ++ " " ++ fmtFixed 8 rec6.yloc0 ++ " " ++
          fmtFixed 8 rec6.zloc0 ++ " " ++ fmtFixed 8 rec6.initialtime ++
          " " ++ rec6.label ++ "\n")), st6) :=
  ⟨⟨by decide, by decide, by decide, by decide, by decide, by decide,
    by decide, by decide⟩,
   c6_indices_converted_at_write_time (fmtFixed 6) (fmtFixed 8) cfg6 st6 rec6
     (by decide) (by decide) (by decide) (by decide) (by decide) (by decide)
     (by decide) (by decide)⟩

/-- C7: `StartingLocationsFile.write_file` performs the index bump on a copy;
the stored record set is unchanged by any call (for any data argument, float
format and pandas availability). -/
theorem c7_write_file_preserves_stored_records :
  ∀ (st : SLFState) (dataArg : Option (List Record)) (ff : ℚ → String)
    (pandasAvail : Bool),
    (slfWriteFile st dataArg ff pandasAvail).2.data = st.data := by
  intro st dataArg ff pandasAvail
  simp only [slfWriteFile]
  split
  · rfl
  · split <;> rfl

/-- C8: calling `write_file` with zero records returns without error and
without creating, opening or modifying the output file, leaving the instance
unchanged. -/
theorem c8_empty_record_set_write_is_noop :
  ∀ (st : SLFState) (dataArg : Option (List Record)) (ff : ℚ → String)
    (pandasAvail : Bool),
    dataArg.getD st.data = [] →
    slfWriteFile st dataArg ff pandasAvail = (WriteResult.noWrite, st) := by
  intro st dataArg ff pandasAvail h
  simp [slfWriteFile, h]

/-- Witness for C8: the empty-data state `st8`. -/
theorem c8_empty_record_set_write_is_noop_witness :
  (Option.getD none st8.data = ([] : List Record)) ∧
    slfWriteFile st8 none (fmtFixed 8) true = (WriteResult.noWrite, st8) :=
  ⟨by decide, c8_empty_record_set_write_is_noop st8 none (fmtFixed 8) true
    (by decide)⟩

/-- C9: constructing a `StartingLocationsFile` with `inputstyle == 1`
succeeds (yielding the fresh empty-data instance), and any other input style
raises `NotImplementedError` at construction. -/
theorem c9_inputstyle_must_be_one :
  (∀ use_pandas : Bool,
    startingLocationsInit 1 use_pandas =
      Except.ok
        { heading := slfHeading, input_style := 1,
          use_pandas := use_pandas, data := [] }) ∧
  ∀ (s : Int) (use_pandas : Bool), s ≠ 1 →
    startingLocationsInit s use_pandas =
      Except.error PyErr.notImplementedError := by
  constructor
  · intro p
    rfl
  · intro s p h
    simp [startingLocationsInit, h]

/-- Witness for C9: input style 2 is rejected. -/
theorem c9_inputstyle_must_be_one_witness :
  ((2 : Int) ≠ 1) ∧
    startingLocationsInit 2 true = Except.error PyErr.notImplementedError :=
  ⟨by decide, c9_inputstyle_must_be_one.2 2 true (by decide)⟩

/-- C10: outside the single rule's guard (`StopOption != 3` or
`TimePointOption != 3`) `check` adds no error and no passed entry, even if
the stop time exceeds every time point. -/
theorem c10_check_vacuous_outside_guard :
  ∀ cfg : SimConfig,
    ¬(cfg.flags.StopOption = 3 ∧ cfg.flags.TimePointOption = 3) →
    checkSim cfg = [] := by
  intro cfg h
  simp [checkSim, h]

/-- Witness for C10: `cfg10` has `StopOption = 2` and a stop time above its
last time point, yet the check report stays empty. -/
theorem c10_check_vacuous_outside_guard_witness :
  ¬(cfg10.flags.StopOption = 3 ∧ cfg10.flags.TimePointOption = 3) ∧
    checkSim cfg10 = [] :=
  ⟨by decide, c10_check_vacuous_outside_guard cfg10 (by decide)⟩
